import Mathlib

/-!
Shallow embedding of the nannou wgpu rendering-backend excerpt.

The repository holds two crate generations side by side:
* `nannou/src/wgpu/...` targets a newer wgpu where load operations carry
  their clear value (`LoadOp<T>` with `Operations { load, store }`);
* `src/draw/backend/wgpu/mod.rs` targets an older wgpu where the load
  operation is a bare enum and the clear color is a separate field.

We embed the newer-style types in namespace `wgpu` and the older-style
ones in namespace `wgpu0`.  GPU handles (devices, texture views, shader
modules, samplers) carry no data relevant to the claims, so they are
modelled as opaque identifiers (`Nat`); buffers are modelled by their
contents.  `f32`/`f64` scalars are modelled as `ℚ` (all arithmetic the
claims touch is exact at the inputs considered).
-/

namespace wgpu

/-- wgpu::AddressMode (sampler addressing). -/
inductive AddressMode where
  | ClampToEdge
  | Repeat
  | MirrorRepeat
deriving DecidableEq, Repr

/-- wgpu::FilterMode (sampler filtering). -/
inductive FilterMode where
  | Nearest
  | Linear
deriving DecidableEq, Repr

/-- wgpu::CompareFunction (subset used by the excerpt). -/
inductive CompareFunction where
  | Never
  | Less
  | Equal
  | LessEqual
  | Greater
  | NotEqual
  | GreaterEqual
  | Always
deriving DecidableEq, Repr

/-- wgpu::Color, components modelled as exact rationals. -/
structure Color where
  r : ℚ
  g : ℚ
  b : ℚ
  a : ℚ
deriving DecidableEq, Repr

/-- wgpu::Color::TRANSPARENT. -/
def Color.TRANSPARENT : Color := ⟨0, 0, 0, 0⟩

/-- Newer-style wgpu::LoadOp, carrying its clear value. -/
inductive LoadOp (α : Type) where
  | Load
  | Clear (value : α)
deriving DecidableEq, Repr

/-- wgpu::Operations. -/
structure Operations (α : Type) where
  load : LoadOp α
  store : Bool
deriving DecidableEq, Repr

/-- wgpu::TextureFormat (subset used by the excerpt). -/
inductive TextureFormat where
  | Rgba8Unorm
  | Rgba16Float
  | Bgra8Unorm
  | Depth32Float
deriving DecidableEq, Repr

/-- wgpu::TextureComponentType. -/
inductive TextureComponentType where
  | Float
  | Sint
  | Uint
deriving DecidableEq, Repr

/-- wgpu::PrimitiveTopology (subset used by the excerpt). -/
inductive PrimitiveTopology where
  | PointList
  | LineList
  | TriangleList
  | TriangleStrip
deriving DecidableEq, Repr

/-- wgpu::BlendDescriptor, abstracted to the variants the excerpt names. -/
inductive BlendDescriptor where
  | REPLACE
  | ADD
deriving DecidableEq, Repr

/-- wgpu::IndexFormat. -/
inductive IndexFormat where
  | Uint16
  | Uint32
deriving DecidableEq, Repr

/-- wgpu::ShaderStage (subset used by the excerpt). -/
inductive ShaderStage where
  | VERTEX
  | FRAGMENT
deriving DecidableEq, Repr

/-- wgpu::TextureViewDimension (subset used by the excerpt). -/
inductive TextureViewDimension where
  | D1
  | D2
  | D3
deriving DecidableEq, Repr

/-- Opaque handle to a texture view: carries only an identity. -/
abbrev TextureViewHandle : Type := ℕ

end wgpu

namespace wgpu

/-! ## nannou/src/wgpu/sampler_builder.rs -/

/-- SamplerDescriptorWithoutLifetime (sampler_builder.rs).  The
`anisotropy_clamp` field is `Option<NonZeroU8>`; we keep the `Option ℕ`
shape since only `none` versus `some` matters to the excerpt. -/
structure SamplerDescriptorWithoutLifetime where
  address_mode_u : AddressMode
  address_mode_v : AddressMode
  address_mode_w : AddressMode
  mag_filter : FilterMode
  min_filter : FilterMode
  mipmap_filter : FilterMode
  lod_min_clamp : ℚ
  lod_max_clamp : ℚ
  compare : CompareFunction
  anisotropy_clamp : Option ℕ
deriving DecidableEq, Repr

/-- SamplerBuilder (sampler_builder.rs). -/
structure SamplerBuilder where
  descriptor : SamplerDescriptorWithoutLifetime
deriving DecidableEq, Repr

namespace SamplerBuilder

def DEFAULT_ADDRESS_MODE_U : AddressMode := AddressMode.ClampToEdge
def DEFAULT_ADDRESS_MODE_V : AddressMode := AddressMode.ClampToEdge
def DEFAULT_ADDRESS_MODE_W : AddressMode := AddressMode.ClampToEdge
def DEFAULT_MAG_FILTER : FilterMode := FilterMode.Linear
def DEFAULT_MIN_FILTER : FilterMode := FilterMode.Linear
def DEFAULT_MIPMAP_FILTER : FilterMode := FilterMode.Nearest
def DEFAULT_LOD_MIN_CLAMP : ℚ := -100
def DEFAULT_LOD_MAX_CLAMP : ℚ := 100
def DEFAULT_COMPARE : CompareFunction := CompareFunction.Always
def DEFAULT_ANISOTROPY_CLAMP : Option ℕ := none

def DEFAULT_DESCRIPTOR : SamplerDescriptorWithoutLifetime :=
  { address_mode_u := DEFAULT_ADDRESS_MODE_U
    address_mode_v := DEFAULT_ADDRESS_MODE_V
    address_mode_w := DEFAULT_ADDRESS_MODE_W
    mag_filter := DEFAULT_MAG_FILTER
    min_filter := DEFAULT_MIN_FILTER
    mipmap_filter := DEFAULT_MIPMAP_FILTER
    lod_min_clamp := DEFAULT_LOD_MIN_CLAMP
    lod_max_clamp := DEFAULT_LOD_MAX_CLAMP
    compare := DEFAULT_COMPARE
    anisotropy_clamp := DEFAULT_ANISOTROPY_CLAMP }

/-- `impl Default for SamplerBuilder`. -/
def default : SamplerBuilder := { descriptor := DEFAULT_DESCRIPTOR }

/-- `SamplerBuilder::new`, which delegates to `Self::default()`. -/
def new : SamplerBuilder := default

def address_mode_u (s : SamplerBuilder) (mode : AddressMode) : SamplerBuilder :=
  { s with descriptor := { s.descriptor with address_mode_u := mode } }

def address_mode_v (s : SamplerBuilder) (mode : AddressMode) : SamplerBuilder :=
  { s with descriptor := { s.descriptor with address_mode_v := mode } }

def address_mode_w (s : SamplerBuilder) (mode : AddressMode) : SamplerBuilder :=
  { s with descriptor := { s.descriptor with address_mode_w := mode } }

def address_mode (s : SamplerBuilder) (mode : AddressMode) : SamplerBuilder :=
  ((s.address_mode_u mode).address_mode_v mode).address_mode_w mode

end SamplerBuilder

end wgpu

namespace wgpu

/-! ## nannou/src/wgpu/render_pass.rs -/

/-- wgpu::RenderPassColorAttachmentDescriptor (newer wgpu style). -/
structure RenderPassColorAttachmentDescriptor where
  attachment : TextureViewHandle
  resolve_target : Option TextureViewHandle
  ops : Operations Color
deriving DecidableEq, Repr

/-- wgpu::RenderPassDepthStencilAttachmentDescriptor.  In upstream wgpu
the stencil operations clear with a `u32`, but `render_pass.rs` fills the
stencil operations from the `f32`-typed depth constants, so both payloads
are modelled with the same scalar type `ℚ` to embed the assignments the
source actually writes. -/
structure RenderPassDepthStencilAttachmentDescriptor where
  attachment : TextureViewHandle
  depth_ops : Option (Operations ℚ)
  stencil_ops : Option (Operations ℚ)
deriving DecidableEq, Repr

/-- ColorAttachmentDescriptorBuilder (render_pass.rs). -/
structure ColorAttachmentDescriptorBuilder where
  descriptor : RenderPassColorAttachmentDescriptor
deriving DecidableEq, Repr

namespace ColorAttachmentDescriptorBuilder

def DEFAULT_LOAD_OP : LoadOp Color := LoadOp.Clear Color.TRANSPARENT
def DEFAULT_STORE_OP : Bool := true

/-- `ColorAttachmentDescriptorBuilder::new`. -/
def new (attachment : TextureViewHandle) : ColorAttachmentDescriptorBuilder :=
  { descriptor :=
      { attachment := attachment
        resolve_target := none
        ops := { load := DEFAULT_LOAD_OP, store := DEFAULT_STORE_OP } } }

/-- `resolve_target` (the handle variant coincides in this model). -/
def resolve_target (b : ColorAttachmentDescriptorBuilder)
    (target : Option TextureViewHandle) : ColorAttachmentDescriptorBuilder :=
  { b with descriptor := { b.descriptor with resolve_target := target } }

def load_op (b : ColorAttachmentDescriptorBuilder) (op : LoadOp Color) :
    ColorAttachmentDescriptorBuilder :=
  { b with descriptor :=
      { b.descriptor with ops := { b.descriptor.ops with load := op } } }

def store_op (b : ColorAttachmentDescriptorBuilder) (store : Bool) :
    ColorAttachmentDescriptorBuilder :=
  { b with descriptor :=
      { b.descriptor with ops := { b.descriptor.ops with store := store } } }

def clear_color (b : ColorAttachmentDescriptorBuilder) (color : Color) :
    ColorAttachmentDescriptorBuilder :=
  { b with descriptor :=
      { b.descriptor with ops :=
          { b.descriptor.ops with load := LoadOp.Clear color } } }

end ColorAttachmentDescriptorBuilder

/-- DepthStencilAttachmentDescriptorBuilder (render_pass.rs).  Only `new`
is embedded besides the constants: the setter methods in the source
(`depth_load_op` and friends) access fields that do not exist on the
descriptor type and do not type-check, and no claim depends on them. -/
structure DepthStencilAttachmentDescriptorBuilder where
  descriptor : RenderPassDepthStencilAttachmentDescriptor
deriving DecidableEq, Repr

namespace DepthStencilAttachmentDescriptorBuilder

def DEFAULT_DEPTH_LOAD_OP : LoadOp ℚ := LoadOp.Clear 1
def DEFAULT_DEPTH_STORE_OP : Bool := true
def DEFAULT_STENCIL_LOAD_OP : LoadOp ℚ := LoadOp.Clear 0
def DEFAULT_STENCIL_STORE_OP : Bool := true

/-- `DepthStencilAttachmentDescriptorBuilder::new`, exactly as written:
both `depth_ops` and `stencil_ops` are filled from the DEPTH defaults. -/
def new (attachment : TextureViewHandle) : DepthStencilAttachmentDescriptorBuilder :=
  { descriptor :=
      { attachment := attachment
        depth_ops := some { load := DEFAULT_DEPTH_LOAD_OP, store := DEFAULT_DEPTH_STORE_OP }
        stencil_ops := some { load := DEFAULT_DEPTH_LOAD_OP, store := DEFAULT_DEPTH_STORE_OP } } }

end DepthStencilAttachmentDescriptorBuilder

/-- render_pass::Builder (render_pass.rs). -/
structure Builder where
  color_attachments : List RenderPassColorAttachmentDescriptor
  depth_stencil_attachment : Option RenderPassDepthStencilAttachmentDescriptor
deriving DecidableEq, Repr

namespace Builder

/-- `#[derive(Default)]` for Builder. -/
def mkDefault : Builder := { color_attachments := [], depth_stencil_attachment := none }

/-- `Builder::new`. -/
def new : Builder := mkDefault

/-- `Builder::color_attachment`: builds a descriptor from the default
color-attachment builder via the supplied closure and pushes it. -/
def color_attachment (b : Builder) (attachment : TextureViewHandle)
    (color_builder : ColorAttachmentDescriptorBuilder → ColorAttachmentDescriptorBuilder) :
    Builder :=
  let builder := ColorAttachmentDescriptorBuilder.new attachment
  let descriptor := (color_builder builder).descriptor
  { b with color_attachments := b.color_attachments ++ [descriptor] }

/-- `Builder::depth_stencil_attachment`: replaces any previous depth
stencil attachment.  (Primed because the structure field of the same
name shadows the method name in Lean.) -/
def depth_stencil_attachment' (b : Builder) (attachment : TextureViewHandle)
    (depth_stencil_builder :
      DepthStencilAttachmentDescriptorBuilder → DepthStencilAttachmentDescriptorBuilder) :
    Builder :=
  let builder := DepthStencilAttachmentDescriptorBuilder.new attachment
  let descriptor := (depth_stencil_builder builder).descriptor
  { b with depth_stencil_attachment := some descriptor }

/-- `Builder::into_inner`. -/
def into_inner (b : Builder) :
    List RenderPassColorAttachmentDescriptor ×
      Option RenderPassDepthStencilAttachmentDescriptor :=
  (b.color_attachments, b.depth_stencil_attachment)

end Builder

/-! A sequence of builder method calls, for reasoning about arbitrary
call orders on `Builder` (claim about call sequences). -/

/-- One call on a render-pass `Builder`: either `color_attachment` or
`depth_stencil_attachment`, with the attachment and the configuring
closure the caller passes. -/
inductive BuilderCall where
  | color (attachment : TextureViewHandle)
      (f : ColorAttachmentDescriptorBuilder → ColorAttachmentDescriptorBuilder)
  | depthStencil (attachment : TextureViewHandle)
      (f : DepthStencilAttachmentDescriptorBuilder → DepthStencilAttachmentDescriptorBuilder)

namespace BuilderCall

/-- Perform one call on the builder. -/
def apply (b : Builder) : BuilderCall → Builder
  | color attachment f => b.color_attachment attachment f
  | depthStencil attachment f => b.depth_stencil_attachment' attachment f

/-- Perform a sequence of calls, left to right. -/
def applyAll (b : Builder) (calls : List BuilderCall) : Builder :=
  calls.foldl apply b

/-- The color descriptor a `color_attachment` call constructs. -/
def colorDesc? : BuilderCall → Option RenderPassColorAttachmentDescriptor
  | color attachment f => some ((f (ColorAttachmentDescriptorBuilder.new attachment)).descriptor)
  | depthStencil _ _ => none

/-- The depth-stencil descriptor a `depth_stencil_attachment` call constructs. -/
def depthDesc? : BuilderCall → Option RenderPassDepthStencilAttachmentDescriptor
  | color _ _ => none
  | depthStencil attachment f =>
      some ((f (DepthStencilAttachmentDescriptorBuilder.new attachment)).descriptor)

/-- Whether the call is a `color_attachment` call. -/
def isColor : BuilderCall → Bool
  | color _ _ => true
  | depthStencil _ _ => false

end BuilderCall

end wgpu

namespace wgpu

/-! ## Spec-modelled builder wrappers

The reshaper constructs its GPU objects through nannou builder types
(`BindGroupLayoutBuilder`, `BindGroupBuilder`, `RenderPipelineBuilder`)
whose sources are not part of the excerpt.  Following the spec's account
of them as "builder utilities that configure a GPU API's render passes,
samplers, textures, and pipelines" whose role is that the "builder
produces the configured descriptor", each is modelled as a record of the
configured values, with one entry appended per entry-adding call. -/

/-- Opaque handle to a sampler: modelled by the descriptor it was built
from, since that is all the excerpt ever configures. -/
abbrev Sampler : Type := SamplerDescriptorWithoutLifetime

/-- `SamplerBuilder::build`: modelled as producing the configured
descriptor (the source calls `device.create_sampler` on it). -/
def SamplerBuilder.build (s : SamplerBuilder) : Sampler := s.descriptor

/-- One entry of a bind group layout (subset the excerpt uses). -/
inductive BindGroupLayoutEntry where
  | sampledTexture (visibility : ShaderStage) (multisampled : Bool)
      (dimension : TextureViewDimension) (component_type : TextureComponentType)
  | sampler (visibility : ShaderStage)
  | uniformBuffer (visibility : ShaderStage) (dynamic : Bool)
      (min_binding_size : Option ℕ)
deriving DecidableEq, Repr

/-- A built bind group layout: its entries in declaration order. -/
abbrev BindGroupLayout : Type := List BindGroupLayoutEntry

/-- Modelled from the spec: nannou's `BindGroupLayoutBuilder` (not in the
excerpt) accumulates one layout entry per configuring call, in call
order, and `build` produces the configured layout. -/
structure BindGroupLayoutBuilder where
  entries : List BindGroupLayoutEntry

namespace BindGroupLayoutBuilder

def new : BindGroupLayoutBuilder := { entries := [] }

def sampled_texture (b : BindGroupLayoutBuilder) (visibility : ShaderStage)
    (multisampled : Bool) (dimension : TextureViewDimension)
    (component_type : TextureComponentType) : BindGroupLayoutBuilder :=
  { entries := b.entries ++
      [BindGroupLayoutEntry.sampledTexture visibility multisampled dimension component_type] }

def sampler (b : BindGroupLayoutBuilder) (visibility : ShaderStage) :
    BindGroupLayoutBuilder :=
  { entries := b.entries ++ [BindGroupLayoutEntry.sampler visibility] }

def uniform_buffer (b : BindGroupLayoutBuilder) (visibility : ShaderStage)
    (dynamic : Bool) (min_binding_size : Option ℕ) : BindGroupLayoutBuilder :=
  { entries := b.entries ++
      [BindGroupLayoutEntry.uniformBuffer visibility dynamic min_binding_size] }

def build (b : BindGroupLayoutBuilder) : BindGroupLayout := b.entries

end BindGroupLayoutBuilder

/-- `Uniforms` (reshaper/mod.rs): the sample count passed to the
non-unrolled fragment shader. -/
structure Uniforms where
  sample_count : ℕ
deriving DecidableEq, Repr

/-- A uniform buffer: modelled by the `Uniforms` value written into it
(the source writes `uniforms_as_bytes(&uniforms)`). -/
abbrev Buffer : Type := Uniforms

/-- One resource bound by a bind group (subset the excerpt uses). -/
inductive BindGroupEntry where
  | textureView (view : TextureViewHandle)
  | sampler (s : Sampler)
  | buffer (contents : Buffer) (range : ℕ × ℕ)
deriving DecidableEq, Repr

/-- A built bind group: its entries in declaration order. -/
abbrev BindGroup : Type := List BindGroupEntry

/-- Modelled from the spec: nannou's `BindGroupBuilder` (not in the
excerpt) accumulates one resource entry per configuring call, in call
order, and `build` produces the configured group. -/
structure BindGroupBuilder where
  entries : List BindGroupEntry

namespace BindGroupBuilder

def new : BindGroupBuilder := { entries := [] }

def texture_view (b : BindGroupBuilder) (view : TextureViewHandle) : BindGroupBuilder :=
  { entries := b.entries ++ [BindGroupEntry.textureView view] }

def sampler (b : BindGroupBuilder) (s : Sampler) : BindGroupBuilder :=
  { entries := b.entries ++ [BindGroupEntry.sampler s] }

def buffer (b : BindGroupBuilder) (buf : Buffer) (range : ℕ × ℕ) : BindGroupBuilder :=
  { entries := b.entries ++ [BindGroupEntry.buffer buf range] }

def build (b : BindGroupBuilder) (_layout : BindGroupLayout) : BindGroup := b.entries

end BindGroupBuilder

/-- A pipeline layout: the bind group layouts it refers to. -/
abbrev PipelineLayout : Type := List BindGroupLayout

/-- Identifies which compiled SPIR-V module was loaded (the excerpt only
ever distinguishes modules by which file they came from). -/
inductive ShaderModule where
  | vert
  | frag
  | frag_msaa2
  | frag_msaa4
  | frag_msaa8
  | frag_msaa16
  | frag_msaa
deriving DecidableEq, Repr

/-- The configured state of a render pipeline (subset the excerpt sets). -/
structure RenderPipeline where
  layout : PipelineLayout
  vertex_shader : ShaderModule
  fragment_shader : Option ShaderModule
  color_format : Option TextureFormat
  color_blend : BlendDescriptor
  alpha_blend : BlendDescriptor
  primitive_topology : PrimitiveTopology
  index_format : IndexFormat
  sample_count : ℕ
  depth_format : Option TextureFormat
deriving DecidableEq, Repr

/-- Modelled from the spec: nannou's `RenderPipelineBuilder` (not in the
excerpt); `from_layout` starts from the given layout and vertex shader
with wgpu's conventional defaults, each setter overwrites its field, and
`build` produces the configured pipeline. -/
structure RenderPipelineBuilder where
  pipeline : RenderPipeline

namespace RenderPipelineBuilder

def from_layout (layout : PipelineLayout) (vs_mod : ShaderModule) :
    RenderPipelineBuilder :=
  { pipeline :=
      { layout := layout
        vertex_shader := vs_mod
        fragment_shader := none
        color_format := none
        color_blend := BlendDescriptor.REPLACE
        alpha_blend := BlendDescriptor.REPLACE
        primitive_topology := PrimitiveTopology.TriangleList
        index_format := IndexFormat.Uint16
        sample_count := 1
        depth_format := none } }

def fragment_shader (b : RenderPipelineBuilder) (fs_mod : ShaderModule) :
    RenderPipelineBuilder :=
  { pipeline := { b.pipeline with fragment_shader := some fs_mod } }

def color_format (b : RenderPipelineBuilder) (format : TextureFormat) :
    RenderPipelineBuilder :=
  { pipeline := { b.pipeline with color_format := some format } }

def color_blend (b : RenderPipelineBuilder) (blend : BlendDescriptor) :
    RenderPipelineBuilder :=
  { pipeline := { b.pipeline with color_blend := blend } }

def alpha_blend (b : RenderPipelineBuilder) (blend : BlendDescriptor) :
    RenderPipelineBuilder :=
  { pipeline := { b.pipeline with alpha_blend := blend } }

def primitive_topology (b : RenderPipelineBuilder) (topology : PrimitiveTopology) :
    RenderPipelineBuilder :=
  { pipeline := { b.pipeline with primitive_topology := topology } }

def index_format (b : RenderPipelineBuilder) (format : IndexFormat) :
    RenderPipelineBuilder :=
  { pipeline := { b.pipeline with index_format := format } }

def sample_count (b : RenderPipelineBuilder) (count : ℕ) :
    RenderPipelineBuilder :=
  { pipeline := { b.pipeline with sample_count := count } }

def build (b : RenderPipelineBuilder) : RenderPipeline := b.pipeline

end RenderPipelineBuilder

end wgpu

namespace reshaper

/-! ## nannou/src/wgpu/texture/reshaper/mod.rs -/

open wgpu

/-- reshaper `Vertex`: a clip-space position (`[f32; 2]`). -/
structure Vertex where
  position : ℚ × ℚ
deriving DecidableEq, Repr

/-- The four clip-space corner vertices (`VERTICES`). -/
def VERTICES : List Vertex :=
  [ { position := (-1, 1) }
  , { position := (-1, -1) }
  , { position := (1, 1) }
  , { position := (1, -1) } ]

/-- `unrolled_sample_count`: sample counts with pre-prepared unrolled
resolve fragment shaders. -/
def unrolled_sample_count (sample_count : ℕ) : Bool :=
  match sample_count with
  | 1 | 2 | 4 | 8 | 16 => true
  | _ => false

/-- `bind_group_layout` (reshaper/mod.rs): a sampled texture and a
sampler, plus a uniform-buffer binding exactly when the sample count has
no unrolled shader. -/
def bind_group_layout (src_sample_count : ℕ)
    (src_component_type : TextureComponentType) : BindGroupLayout :=
  let builder := (BindGroupLayoutBuilder.new.sampled_texture
      ShaderStage.FRAGMENT (decide (src_sample_count > 1))
      TextureViewDimension.D2 src_component_type).sampler ShaderStage.FRAGMENT
  let builder :=
    if ¬ unrolled_sample_count src_sample_count then
      builder.uniform_buffer ShaderStage.FRAGMENT false none
    else builder
  builder.build

/-- `bind_group` (reshaper/mod.rs): texture view and sampler, plus the
uniform buffer when present. -/
def bind_group (layout : BindGroupLayout) (texture : TextureViewHandle)
    (sampler : Sampler) (uniform_buffer : Option Buffer) : BindGroup :=
  let builder := (BindGroupBuilder.new.texture_view texture).sampler sampler
  let builder :=
    match uniform_buffer with
    | some buf => builder.buffer buf (0, 1)
    | none => builder
  builder.build layout

/-- `pipeline_layout` (reshaper/mod.rs). -/
def pipeline_layout (bgl : BindGroupLayout) : PipelineLayout := [bgl]

/-- `render_pipeline` (reshaper/mod.rs). -/
def render_pipeline (layout : PipelineLayout) (vs_mod fs_mod : ShaderModule)
    (dst_sample_count : ℕ) (dst_format : TextureFormat) : RenderPipeline :=
  ((((((((RenderPipelineBuilder.from_layout layout vs_mod).fragment_shader
      fs_mod).color_format dst_format).color_blend
      BlendDescriptor.REPLACE).alpha_blend
      BlendDescriptor.REPLACE).primitive_topology
      PrimitiveTopology.TriangleStrip).index_format
      IndexFormat.Uint16).sample_count dst_sample_count).build

/-- The `Reshaper` struct (render-pass-relevant fields; buffers are
modelled by their contents). -/
structure Reshaper where
  vs_mod : ShaderModule
  fs_mod : ShaderModule
  bind_group_layout : BindGroupLayout
  bind_group : BindGroup
  render_pipeline : RenderPipeline
  sampler : Sampler
  uniform_buffer : Option Buffer
  vertex_buffer : List Vertex
deriving DecidableEq, Repr

namespace Reshaper

/-- `Reshaper::new`. -/
def new (src_texture : TextureViewHandle) (src_sample_count : ℕ)
    (src_component_type : TextureComponentType) (dst_sample_count : ℕ)
    (dst_format : TextureFormat) : Reshaper :=
  let vs_mod := ShaderModule.vert
  let fs_mod :=
    match src_sample_count with
    | 1 => ShaderModule.frag
    | 2 => ShaderModule.frag_msaa2
    | 4 => ShaderModule.frag_msaa4
    | 8 => ShaderModule.frag_msaa8
    | 16 => ShaderModule.frag_msaa16
    | _ => ShaderModule.frag_msaa
  let sampler := SamplerBuilder.new.build
  let bgl := reshaper.bind_group_layout src_sample_count src_component_type
  let playout := reshaper.pipeline_layout bgl
  let pipeline := reshaper.render_pipeline playout vs_mod fs_mod dst_sample_count dst_format
  let uniform_buffer : Option Buffer :=
    match unrolled_sample_count src_sample_count with
    | true => none
    | false => some { sample_count := src_sample_count }
  let bg := reshaper.bind_group bgl src_texture sampler uniform_buffer
  { vs_mod := vs_mod
    fs_mod := fs_mod
    bind_group_layout := bgl
    bind_group := bg
    render_pipeline := pipeline
    sampler := sampler
    uniform_buffer := uniform_buffer
    vertex_buffer := VERTICES }

end Reshaper

/-- One command recorded on the reshaper's render pass.  Ranges are
half-open `(start, stop)` pairs mirroring Rust `Range<u32>`. -/
inductive RenderPassCommand where
  | setPipeline (pipeline : RenderPipeline)
  | setVertexBuffer (slot : ℕ) (buffer : List Vertex)
  | setBindGroup (index : ℕ) (group : BindGroup)
  | draw (vertex_range : ℕ × ℕ) (instance_range : ℕ × ℕ)
deriving DecidableEq, Repr

/-- A render pass as encoded on a command encoder: the descriptor it was
begun with (via `RenderPassBuilder::begin`) and the commands recorded. -/
structure EncodedRenderPass where
  color_attachments : List RenderPassColorAttachmentDescriptor
  depth_stencil_attachment : Option RenderPassDepthStencilAttachmentDescriptor
  commands : List RenderPassCommand
deriving DecidableEq, Repr

/-- A command encoder: the render passes encoded on it so far. -/
abbrev CommandEncoder : Type := List EncodedRenderPass

/-- `Reshaper::encode_render_pass`: begins one pass on the destination
texture through `RenderPassBuilder` with an unmodified color attachment,
sets pipeline, vertex buffer and bind group, and draws
`0..VERTICES.len()` with instance range `0..1`. -/
def Reshaper.encode_render_pass (r : Reshaper) (dst_texture : TextureViewHandle)
    (encoder : CommandEncoder) : CommandEncoder :=
  let builder := Builder.new.color_attachment dst_texture (fun color => color)
  let (colors, depth_stencil) := builder.into_inner
  let vertex_range := (0, VERTICES.length)
  let instance_range := (0, 1)
  let pass : EncodedRenderPass :=
    { color_attachments := colors
      depth_stencil_attachment := depth_stencil
      commands :=
        [ RenderPassCommand.setPipeline r.render_pipeline
        , RenderPassCommand.setVertexBuffer 0 r.vertex_buffer
        , RenderPassCommand.setBindGroup 0 r.bind_group
        , RenderPassCommand.draw vertex_range instance_range ] }
  encoder ++ [pass]

end reshaper

namespace wgpu0

/-! ## src/draw/backend/wgpu/mod.rs (older wgpu generation)

This backend targets the older wgpu API: the load operation is a bare
enum and the clear color/depth values are separate descriptor fields. -/

/-- Older-style wgpu::LoadOp. -/
inductive LoadOp where
  | Clear
  | Load
deriving DecidableEq, Repr

/-- wgpu::TextureUsage (single-flag subset the excerpt uses). -/
inductive TextureUsage where
  | OUTPUT_ATTACHMENT
  | SAMPLED
  | COPY_SRC
deriving DecidableEq, Repr

/-- A wgpu texture: the configuration the excerpt reads back
(`size`, `format`, `sample_count`) plus its usage. -/
structure Texture where
  size : ℕ × ℕ
  format : wgpu.TextureFormat
  usage : TextureUsage
  sample_count : ℕ
deriving DecidableEq, Repr

/-- A texture view; a default view is determined by its texture. -/
abbrev TextureView : Type := Texture

/-- `Texture::create_default_view`. -/
def Texture.create_default_view (t : Texture) : TextureView := t

/-- Modelled from the spec: nannou's `TextureBuilder` (not in the
excerpt) holds the configured texture values; each setter overwrites its
field and `build` produces the configured texture.  The initial values
are immaterial here because `create_depth_texture` sets every field the
claims read. -/
structure TextureBuilder where
  size : ℕ × ℕ
  format : wgpu.TextureFormat
  usage : TextureUsage
  sample_count : ℕ

namespace TextureBuilder

def new : TextureBuilder :=
  { size := (0, 0)
    format := wgpu.TextureFormat.Rgba8Unorm
    usage := TextureUsage.SAMPLED
    sample_count := 1 }

def setSize (b : TextureBuilder) (size : ℕ × ℕ) : TextureBuilder :=
  { b with size := size }

def setFormat (b : TextureBuilder) (format : wgpu.TextureFormat) : TextureBuilder :=
  { b with format := format }

def setUsage (b : TextureBuilder) (usage : TextureUsage) : TextureBuilder :=
  { b with usage := usage }

def setSampleCount (b : TextureBuilder) (sample_count : ℕ) : TextureBuilder :=
  { b with sample_count := sample_count }

def build (b : TextureBuilder) : Texture :=
  { size := b.size
    format := b.format
    usage := b.usage
    sample_count := b.sample_count }

end TextureBuilder

/-- `create_depth_texture` (mod.rs): builds a texture of the given size,
format and sample count with OUTPUT_ATTACHMENT usage. -/
def create_depth_texture (size : ℕ × ℕ) (depth_format : wgpu.TextureFormat)
    (sample_count : ℕ) : Texture :=
  ((((TextureBuilder.new.setSize size).setFormat depth_format).setUsage
      TextureUsage.OUTPUT_ATTACHMENT).setSampleCount sample_count).build

/-- The backend `Vertex` type passed to the vertex shader. -/
structure Vertex where
  position : ℚ × ℚ × ℚ
  color : ℚ × ℚ × ℚ × ℚ
  tex_coords : ℚ × ℚ
deriving DecidableEq, Repr

/-- Modelled from the spec: `draw::mesh::Vertex<S>` is not in the
excerpt; `Vertex::from_mesh_vertex` reads from it a 3-D point, a
linear-sRGB color (via `.into()` yielding `(r, g, b, a)`) and 2-D texture
coordinates, so it is modelled as exactly that data. -/
structure MeshVertex where
  point : ℚ × ℚ × ℚ
  color : ℚ × ℚ × ℚ × ℚ
  tex_coords : ℚ × ℚ
deriving DecidableEq, Repr

/-- `Vertex::from_mesh_vertex`: maps framebuffer coordinates to clip
space, negating y (wgpu's y grows downwards), scaling by the DPI factor.
`NumCast` conversions are identities in this rational model. -/
def Vertex.from_mesh_vertex (v : MeshVertex) (framebuffer_width : ℚ)
    (framebuffer_height : ℚ) (dpi_factor : ℚ) : Vertex :=
  let x_f := v.point.1
  let y_f := v.point.2.1
  let z_f := v.point.2.2
  let x := 2 * x_f * dpi_factor / framebuffer_width
  let y := -(2 * y_f * dpi_factor / framebuffer_height)
  let z := 2 * z_f * dpi_factor / framebuffer_height
  let tex_x := v.tex_coords.1
  let tex_y := v.tex_coords.2
  let position := (x, y, z)
  let color := v.color
  let tex_coords := (tex_x, tex_y)
  { position := position, color := color, tex_coords := tex_coords }

/-- A background color as recorded by the draw state; `.into()` yields
its `(r, g, b, a)` components. -/
structure Rgba where
  r : ℚ
  g : ℚ
  b : ℚ
  a : ℚ
deriving DecidableEq, Repr

/-- Modelled from the spec: `draw::Draw<S>` is not in the excerpt;
`encode_render_pass` reads only its raw mesh vertices
(`draw.raw_vertices()`), its inner mesh indices
(`draw.inner_mesh().indices()`, `usize` values) and the recorded
background color (`draw.state.borrow().background_color`). -/
structure Draw where
  raw_vertices : List MeshVertex
  mesh_indices : List ℕ
  background_color : Option Rgba
deriving DecidableEq, Repr

/-- Older-style render pass color attachment descriptor: the load
operation and the clear color are separate fields. -/
structure RenderPassColorAttachmentDescriptor where
  attachment : ℕ
  resolve_target : Option ℕ
  load_op : LoadOp
  clear_color : wgpu.Color
deriving DecidableEq, Repr

/-- Older-style depth-stencil attachment descriptor; the excerpt
configures nothing beyond the attachment (`|depth| depth`). -/
structure RenderPassDepthStencilAttachmentDescriptor where
  attachment : TextureView
deriving DecidableEq, Repr

/-- One command recorded on the backend's render pass.  Ranges are
half-open `(start, stop)` pairs mirroring Rust ranges; buffers are
modelled by their contents. -/
inductive RenderPassCommand where
  | setPipeline (pipeline : ℕ)
  | setBindGroup (index : ℕ) (group : ℕ)
  | setIndexBuffer (buffer : List ℕ) (offset : ℕ)
  | setVertexBuffers (slot : ℕ) (buffers : List (List Vertex × ℕ))
  | drawIndexed (index_range : ℕ × ℕ) (start_vertex : ℤ) (instance_range : ℕ × ℕ)
deriving DecidableEq, Repr

/-- A render pass as encoded on the command encoder. -/
structure EncodedRenderPass where
  color_attachments : List RenderPassColorAttachmentDescriptor
  depth_stencil_attachment : Option RenderPassDepthStencilAttachmentDescriptor
  commands : List RenderPassCommand
deriving DecidableEq, Repr

abbrev CommandEncoder : Type := List EncodedRenderPass

/-- The `Renderer` (mod.rs): pipeline and bind group are opaque handles;
the vertex and index scratch vectors and the depth texture/view are the
mutable state `encode_render_pass` updates. -/
structure Renderer where
  render_pipeline : ℕ
  depth_texture : Texture
  depth_texture_view : TextureView
  bind_group : ℕ
  vertices : List Vertex
  indices : List ℕ
deriving DecidableEq, Repr

namespace Renderer

/-- The body of `Renderer::encode_render_pass`, split into the state
update plus the single render pass it records; `encode_render_pass`
appends that pass to the encoder.  Index values are cast `as u32`
(truncation modulo 2^32). -/
def encode_step (r : Renderer) (draw : Draw) (scale_factor : ℚ)
    (output_attachment_size : ℕ × ℕ) (output_attachment : ℕ)
    (resolve_target : Option ℕ) : Renderer × EncodedRenderPass :=
  let depth_size := r.depth_texture.size
  let (depth_texture, depth_texture_view) :=
    if output_attachment_size ≠ depth_size then
      let depth_format := r.depth_texture.format
      let sample_count := r.depth_texture.sample_count
      let t := create_depth_texture output_attachment_size depth_format sample_count
      (t, t.create_default_view)
    else
      (r.depth_texture, r.depth_texture_view)
  let (load_op, clear_color) :=
    match draw.background_color with
    | none => (LoadOp.Load, wgpu.Color.TRANSPARENT)
    | some color =>
        let clear_color : wgpu.Color :=
          { r := color.r, g := color.g, b := color.b, a := color.a }
        (LoadOp.Clear, clear_color)
  let (img_w, img_h) := output_attachment_size
  let map_vertex := fun v =>
    Vertex.from_mesh_vertex v (img_w : ℚ) (img_h : ℚ) scale_factor
  let vertices := draw.raw_vertices.map map_vertex
  let vertex_buffer := vertices
  let indices := draw.mesh_indices.map (fun u => u % 2 ^ 32)
  let index_buffer := indices
  let pass : EncodedRenderPass :=
    { color_attachments :=
        [ { attachment := output_attachment
            resolve_target := resolve_target
            load_op := load_op
            clear_color := clear_color } ]
      depth_stencil_attachment := some { attachment := depth_texture_view }
      commands :=
        [ RenderPassCommand.setPipeline r.render_pipeline
        , RenderPassCommand.setBindGroup 0 r.bind_group
        , RenderPassCommand.setIndexBuffer index_buffer 0
        , RenderPassCommand.setVertexBuffers 0 [(vertex_buffer, 0)]
        , RenderPassCommand.drawIndexed (0, indices.length) 0 (0, 1) ] }
  ( { r with
        depth_texture := depth_texture
        depth_texture_view := depth_texture_view
        vertices := vertices
        indices := indices }
  , pass )

/-- `Renderer::encode_render_pass`: performs the state update and
appends the recorded pass to the encoder. -/
def encode_render_pass (r : Renderer) (draw : Draw) (scale_factor : ℚ)
    (output_attachment_size : ℕ × ℕ) (output_attachment : ℕ)
    (resolve_target : Option ℕ) (encoder : CommandEncoder) :
    Renderer × CommandEncoder :=
  let (r', pass) :=
    r.encode_step draw scale_factor output_attachment_size output_attachment resolve_target
  (r', encoder ++ [pass])

end Renderer

end wgpu0

namespace drawPrimitive

/-! ## nannou/src/draw/primitive/texture.rs -/

/-- Modelled from the spec: `spatial::dimension::Properties` is not in
the excerpt; it carries optional x/y/z dimensions, read by
`render_primitive` as `(dimensions.x, dimensions.y, dimensions.z)`. -/
structure Dimensions where
  x : Option ℚ
  y : Option ℚ
  z : Option ℚ
deriving DecidableEq, Repr

/-- Modelled from the spec: `spatial::Properties` is not in the excerpt;
besides the dimensions it carries position and orientation, which only
feed the transform and are opaque to the claim. -/
structure SpatialProperties where
  dimensions : Dimensions
  position : ℕ
  orientation : ℕ
deriving DecidableEq, Repr

/-- `geom::Range` (field `end` renamed `stop`: Lean keyword). -/
structure Range where
  start : ℚ
  stop : ℚ
deriving DecidableEq, Repr

/-- `geom::Rect`. -/
structure Rect where
  x : Range
  y : Range
deriving DecidableEq, Repr

/-- The draw-primitive `Texture` (texture.rs). -/
structure Texture where
  texture_view : ℕ
  spatial : SpatialProperties
  area : Rect
deriving DecidableEq, Repr

/-- What `render_primitive` produces when it does not panic: the width
and height of the rect it tessellates (after the `unwrap_or(100.0)`
defaults) and the texture view handed back via
`PrimitiveRender::texture`.  The tessellation itself
(`render_path_points_textured`) is not in the excerpt and only consumes
the rect; it is outside the claim. -/
structure PrimitiveRenderResult where
  rect_w : ℚ
  rect_h : ℚ
  texture_view : ℕ
deriving DecidableEq, Repr

/-- `Texture::render_primitive`: the `assert!` is modelled as
`Except.error` carrying the panic message. -/
def Texture.render_primitive (t : Texture) : Except String PrimitiveRenderResult :=
  let dimensions := t.spatial.dimensions
  let maybe_x := dimensions.x
  let maybe_y := dimensions.y
  let maybe_z := dimensions.z
  if maybe_z.isSome then
    Except.error "z dimension support for rect is unimplemented"
  else
    let w := maybe_x.getD 100
    let h := maybe_y.getD 100
    Except.ok { rect_w := w, rect_h := h, texture_view := t.texture_view }

end drawPrimitive

namespace wgpu

/-- The resource kind a binding refers to, for comparing bind group
entries against bind group layout entries. -/
inductive BindingKind where
  | texture
  | sampler
  | buffer
deriving DecidableEq, Repr

/-- The kind of resource a layout entry declares. -/
def layoutEntryKind : BindGroupLayoutEntry → BindingKind
  | BindGroupLayoutEntry.sampledTexture _ _ _ _ => BindingKind.texture
  | BindGroupLayoutEntry.sampler _ => BindingKind.sampler
  | BindGroupLayoutEntry.uniformBuffer _ _ _ => BindingKind.buffer

/-- The kind of resource a bind group entry supplies. -/
def bindEntryKind : BindGroupEntry → BindingKind
  | BindGroupEntry.textureView _ => BindingKind.texture
  | BindGroupEntry.sampler _ => BindingKind.sampler
  | BindGroupEntry.buffer _ _ => BindingKind.buffer

/-- Whether a layout entry is a uniform-buffer binding. -/
def isUniformBufferEntry : BindGroupLayoutEntry → Bool
  | BindGroupLayoutEntry.uniformBuffer _ _ _ => true
  | _ => false

end wgpu

/-! ## Theorems -/

/-- C5: `SamplerBuilder::new` (and `Default`) produces the configured
default descriptor: every field equals its `DEFAULT_*` constant —
ClampToEdge addressing on all three axes, Linear mag/min filters,
Nearest mipmap filter, lod clamps -100/100, compare Always, and no
anisotropy clamp. -/
theorem C5_sampler_builder_defaults :
    wgpu.SamplerBuilder.new = wgpu.SamplerBuilder.default ∧
    wgpu.SamplerBuilder.new.descriptor.address_mode_u = wgpu.AddressMode.ClampToEdge ∧
    wgpu.SamplerBuilder.new.descriptor.address_mode_v = wgpu.AddressMode.ClampToEdge ∧
    wgpu.SamplerBuilder.new.descriptor.address_mode_w = wgpu.AddressMode.ClampToEdge ∧
    wgpu.SamplerBuilder.new.descriptor.mag_filter = wgpu.FilterMode.Linear ∧
    wgpu.SamplerBuilder.new.descriptor.min_filter = wgpu.FilterMode.Linear ∧
    wgpu.SamplerBuilder.new.descriptor.mipmap_filter = wgpu.FilterMode.Nearest ∧
    wgpu.SamplerBuilder.new.descriptor.lod_min_clamp = -100 ∧
    wgpu.SamplerBuilder.new.descriptor.lod_max_clamp = 100 ∧
    wgpu.SamplerBuilder.new.descriptor.compare = wgpu.CompareFunction.Always ∧
    wgpu.SamplerBuilder.new.descriptor.anisotropy_clamp = none ∧
    wgpu.SamplerBuilder.new.descriptor = wgpu.SamplerBuilder.DEFAULT_DESCRIPTOR :=
  ⟨rfl, rfl, rfl, rfl, rfl, rfl, rfl, rfl, rfl, rfl, rfl, rfl⟩

/-- C6: the freshly constructed depth-stencil attachment descriptor —
the depth ops do carry `Clear(1.0)`/store, but the stencil ops are
filled from the DEPTH defaults, so their load is `Clear(1.0)`, not the
declared `DEFAULT_STENCIL_LOAD_OP = Clear(0)` the claim states (the
stencil constants are declared and never used). -/
theorem C6_depth_stencil_new_stencil_uses_depth_defaults :
    (wgpu.DepthStencilAttachmentDescriptorBuilder.new 0).descriptor.depth_ops =
      some { load := wgpu.LoadOp.Clear 1
             store := wgpu.DepthStencilAttachmentDescriptorBuilder.DEFAULT_DEPTH_STORE_OP } ∧
    (wgpu.DepthStencilAttachmentDescriptorBuilder.new 0).descriptor.stencil_ops =
      some { load := wgpu.LoadOp.Clear 1
             store := wgpu.DepthStencilAttachmentDescriptorBuilder.DEFAULT_STENCIL_STORE_OP } ∧
    wgpu.DepthStencilAttachmentDescriptorBuilder.DEFAULT_STENCIL_LOAD_OP =
      wgpu.LoadOp.Clear 0 ∧
    (wgpu.DepthStencilAttachmentDescriptorBuilder.new 0).descriptor.stencil_ops ≠
      some { load := wgpu.DepthStencilAttachmentDescriptorBuilder.DEFAULT_STENCIL_LOAD_OP
             store := wgpu.DepthStencilAttachmentDescriptorBuilder.DEFAULT_STENCIL_STORE_OP } := by
  refine ⟨rfl, rfl, rfl, ?_⟩
  simp [wgpu.DepthStencilAttachmentDescriptorBuilder.new,
    wgpu.DepthStencilAttachmentDescriptorBuilder.DEFAULT_DEPTH_LOAD_OP,
    wgpu.DepthStencilAttachmentDescriptorBuilder.DEFAULT_STENCIL_LOAD_OP,
    wgpu.DepthStencilAttachmentDescriptorBuilder.DEFAULT_DEPTH_STORE_OP,
    wgpu.DepthStencilAttachmentDescriptorBuilder.DEFAULT_STENCIL_STORE_OP]

/-- C8 counterexample: `Vertex::from_mesh_vertex` is not independent of
the `dpi_factor` argument — at mesh point `(1, 0, 0)` on a 2×2
framebuffer, dpi factor 1 gives clip x = 1 while dpi factor 2 gives
clip x = 2. -/
theorem C8_counterexample_dpi_changes_vertex :
    wgpu0.Vertex.from_mesh_vertex
        { point := (1, 0, 0), color := (0, 0, 0, 1), tex_coords := (0, 0) } 2 2 1 ≠
      wgpu0.Vertex.from_mesh_vertex
        { point := (1, 0, 0), color := (0, 0, 0, 1), tex_coords := (0, 0) } 2 2 2 := by
  simp only [wgpu0.Vertex.from_mesh_vertex, ne_eq, wgpu0.Vertex.mk.injEq, Prod.mk.injEq]
  norm_num

/-- C8 amended: the color and texture coordinates produced by
`Vertex::from_mesh_vertex` are independent of the dpi factor, but each
position component scales linearly with it (its value at dpi factor `d`
is `d` times its value at dpi factor 1), so the uploaded vertex data is
NOT the same for two different dpi factors in general. -/
theorem C8_amended_dpi_scales_position_only (v : wgpu0.MeshVertex) (fw fh d : ℚ) :
    (wgpu0.Vertex.from_mesh_vertex v fw fh d).color =
      (wgpu0.Vertex.from_mesh_vertex v fw fh 1).color ∧
    (wgpu0.Vertex.from_mesh_vertex v fw fh d).tex_coords =
      (wgpu0.Vertex.from_mesh_vertex v fw fh 1).tex_coords ∧
    (wgpu0.Vertex.from_mesh_vertex v fw fh d).position =
      ( d * (wgpu0.Vertex.from_mesh_vertex v fw fh 1).position.1
      , d * (wgpu0.Vertex.from_mesh_vertex v fw fh 1).position.2.1
      , d * (wgpu0.Vertex.from_mesh_vertex v fw fh 1).position.2.2 ) := by
  refine ⟨rfl, rfl, ?_⟩
  simp only [wgpu0.Vertex.from_mesh_vertex, Prod.mk.injEq]
  refine ⟨by ring, by ring, by ring⟩

/-- C4: `Texture::render_primitive` panics (its `assert!` fires) exactly
when the spatial dimensions' z component is `Some`; when z is `None` it
renders normally, tessellating a rect whose width and height default to
100.0 when unspecified and returning the texture view. -/
theorem C4_render_primitive_asserts_on_z (t : drawPrimitive.Texture) :
    ((∃ msg, t.render_primitive = Except.error msg) ↔
      t.spatial.dimensions.z.isSome = true) ∧
    (t.spatial.dimensions.z = none →
      t.render_primitive = Except.ok
        { rect_w := t.spatial.dimensions.x.getD 100
          rect_h := t.spatial.dimensions.y.getD 100
          texture_view := t.texture_view }) := by
  rcases t with ⟨tv, ⟨⟨x, y, z⟩, p, o⟩, area⟩
  cases z <;> simp [drawPrimitive.Texture.render_primitive]

/-- C4 witness: a texture primitive with no z dimension, unspecified
width and height 50 renders normally with width defaulted to 100. -/
theorem C4_render_primitive_witness :
    drawPrimitive.Texture.render_primitive
        { texture_view := 7
          spatial :=
            { dimensions := { x := none, y := some 50, z := none }
              position := 0
              orientation := 0 }
          area := { x := { start := 0, stop := 1 }, y := { start := 0, stop := 1 } } } =
      Except.ok { rect_w := 100, rect_h := 50, texture_view := 7 } :=
  (C4_render_primitive_asserts_on_z
    { texture_view := 7
      spatial :=
        { dimensions := { x := none, y := some 50, z := none }
          position := 0
          orientation := 0 }
      area := { x := { start := 0, stop := 1 }, y := { start := 0, stop := 1 } } }).2 rfl

/-- C1: `Reshaper::encode_render_pass` encodes exactly one full-screen
triangle-strip draw into the destination texture: the pipeline built by
`Reshaper::new` uses TriangleStrip topology with REPLACE color and alpha
blending, and the pass draws vertex range `0..4` over the four
clip-space corners `(-1,1), (-1,-1), (1,1), (1,-1)` with a single
instance, for every destination texture view and encoder. -/
theorem C1_reshaper_encodes_one_fullscreen_strip_draw
    (src_texture : wgpu.TextureViewHandle) (src_sample_count : ℕ)
    (src_component_type : wgpu.TextureComponentType) (dst_sample_count : ℕ)
    (dst_format : wgpu.TextureFormat) (dst_texture : wgpu.TextureViewHandle)
    (encoder : reshaper.CommandEncoder) :
    let r := reshaper.Reshaper.new src_texture src_sample_count src_component_type
      dst_sample_count dst_format
    r.render_pipeline.primitive_topology = wgpu.PrimitiveTopology.TriangleStrip ∧
    r.render_pipeline.color_blend = wgpu.BlendDescriptor.REPLACE ∧
    r.render_pipeline.alpha_blend = wgpu.BlendDescriptor.REPLACE ∧
    r.vertex_buffer =
      [ { position := (-1, 1) }, { position := (-1, -1) }
      , { position := (1, 1) }, { position := (1, -1) } ] ∧
    r.encode_render_pass dst_texture encoder = encoder ++
      [ { color_attachments :=
            [ { attachment := dst_texture
                resolve_target := none
                ops := { load := wgpu.LoadOp.Clear wgpu.Color.TRANSPARENT, store := true } } ]
          depth_stencil_attachment := none
          commands :=
            [ reshaper.RenderPassCommand.setPipeline r.render_pipeline
            , reshaper.RenderPassCommand.setVertexBuffer 0 reshaper.VERTICES
            , reshaper.RenderPassCommand.setBindGroup 0 r.bind_group
            , reshaper.RenderPassCommand.draw (0, 4) (0, 1) ] } ] :=
  ⟨rfl, rfl, rfl, rfl, rfl⟩

/-- `unrolled_sample_count` is true exactly on {1, 2, 4, 8, 16}. -/
theorem unrolled_sample_count_iff (n : ℕ) :
    reshaper.unrolled_sample_count n = true ↔
      (n = 1 ∨ n = 2 ∨ n = 4 ∨ n = 8 ∨ n = 16) := by
  unfold reshaper.unrolled_sample_count
  split <;> simp_all

/-- The reshaper's bind group layout, computed: texture and sampler
entries, plus a uniform-buffer entry exactly when no unrolled shader
exists for the sample count. -/
theorem reshaper_bind_group_layout_eq (n : ℕ) (ct : wgpu.TextureComponentType) :
    reshaper.bind_group_layout n ct =
      [ wgpu.BindGroupLayoutEntry.sampledTexture wgpu.ShaderStage.FRAGMENT
          (decide (n > 1)) wgpu.TextureViewDimension.D2 ct
      , wgpu.BindGroupLayoutEntry.sampler wgpu.ShaderStage.FRAGMENT ] ++
      (if reshaper.unrolled_sample_count n = true then []
       else [wgpu.BindGroupLayoutEntry.uniformBuffer wgpu.ShaderStage.FRAGMENT false none]) := by
  cases hu : reshaper.unrolled_sample_count n <;>
    simp [reshaper.bind_group_layout, hu, wgpu.BindGroupLayoutBuilder.new,
      wgpu.BindGroupLayoutBuilder.sampled_texture, wgpu.BindGroupLayoutBuilder.sampler,
      wgpu.BindGroupLayoutBuilder.uniform_buffer, wgpu.BindGroupLayoutBuilder.build]

/-- The reshaper's bind group, computed: texture view and sampler
entries, plus a buffer entry exactly when a uniform buffer is present. -/
theorem reshaper_bind_group_eq (layout : wgpu.BindGroupLayout)
    (tex : wgpu.TextureViewHandle) (samp : wgpu.Sampler) (ub : Option wgpu.Buffer) :
    reshaper.bind_group layout tex samp ub =
      [ wgpu.BindGroupEntry.textureView tex, wgpu.BindGroupEntry.sampler samp ] ++
      (match ub with
       | some buf => [wgpu.BindGroupEntry.buffer buf (0, 1)]
       | none => []) := by
  cases ub <;>
    simp [reshaper.bind_group, wgpu.BindGroupBuilder.new, wgpu.BindGroupBuilder.texture_view,
      wgpu.BindGroupBuilder.sampler, wgpu.BindGroupBuilder.buffer, wgpu.BindGroupBuilder.build]

/-- `Reshaper::new` stores the uniform buffer decided by
`unrolled_sample_count`. -/
theorem reshaper_new_uniform_buffer (s : wgpu.TextureViewHandle) (n : ℕ)
    (ct : wgpu.TextureComponentType) (dsc : ℕ) (df : wgpu.TextureFormat) :
    (reshaper.Reshaper.new s n ct dsc df).uniform_buffer =
      (match reshaper.unrolled_sample_count n with
       | true => none
       | false => some { sample_count := n }) := rfl

/-- `Reshaper::new` stores the layout built by `bind_group_layout`. -/
theorem reshaper_new_bind_group_layout (s : wgpu.TextureViewHandle) (n : ℕ)
    (ct : wgpu.TextureComponentType) (dsc : ℕ) (df : wgpu.TextureFormat) :
    (reshaper.Reshaper.new s n ct dsc df).bind_group_layout =
      reshaper.bind_group_layout n ct := rfl

/-- `Reshaper::new` stores the bind group built over its layout, source
texture, sampler and uniform buffer. -/
theorem reshaper_new_bind_group (s : wgpu.TextureViewHandle) (n : ℕ)
    (ct : wgpu.TextureComponentType) (dsc : ℕ) (df : wgpu.TextureFormat) :
    (reshaper.Reshaper.new s n ct dsc df).bind_group =
      reshaper.bind_group (reshaper.bind_group_layout n ct) s
        wgpu.SamplerBuilder.new.build
        (reshaper.Reshaper.new s n ct dsc df).uniform_buffer := rfl

/-- C2: `Reshaper::new` creates a uniform buffer holding the source
sample count if and only if that count is not one of {1, 2, 4, 8, 16},
the bind group layout contains a uniform-buffer binding in exactly the
same case, and the bind group entries always match the layout entries
kind for kind. -/
theorem C2_reshaper_uniform_buffer_iff_not_unrolled (s : wgpu.TextureViewHandle)
    (n : ℕ) (ct : wgpu.TextureComponentType) (dsc : ℕ) (df : wgpu.TextureFormat) :
    ((reshaper.Reshaper.new s n ct dsc df).uniform_buffer = some { sample_count := n } ↔
      ¬(n = 1 ∨ n = 2 ∨ n = 4 ∨ n = 8 ∨ n = 16)) ∧
    ((∃ e ∈ (reshaper.Reshaper.new s n ct dsc df).bind_group_layout,
        wgpu.isUniformBufferEntry e = true) ↔
      ¬(n = 1 ∨ n = 2 ∨ n = 4 ∨ n = 8 ∨ n = 16)) ∧
    (reshaper.Reshaper.new s n ct dsc df).bind_group.map wgpu.bindEntryKind =
      (reshaper.Reshaper.new s n ct dsc df).bind_group_layout.map wgpu.layoutEntryKind := by
  rw [reshaper_new_bind_group, reshaper_new_uniform_buffer, reshaper_new_bind_group_layout,
    reshaper_bind_group_layout_eq, reshaper_bind_group_eq]
  rw [← unrolled_sample_count_iff n]
  cases hu : reshaper.unrolled_sample_count n <;>
    simp [hu, wgpu.bindEntryKind, wgpu.layoutEntryKind, wgpu.isUniformBufferEntry]

/-- Applying a call sequence appends, in order, exactly the color
descriptors built by the `color_attachment` calls. -/
theorem applyAll_color_attachments (cs : List wgpu.BuilderCall) (b : wgpu.Builder) :
    (wgpu.BuilderCall.applyAll b cs).color_attachments =
      b.color_attachments ++ cs.filterMap wgpu.BuilderCall.colorDesc? := by
  induction cs generalizing b with
  | nil => simp [wgpu.BuilderCall.applyAll]
  | cons c cs ih =>
    cases c with
    | color att f =>
      have step : wgpu.BuilderCall.applyAll b (wgpu.BuilderCall.color att f :: cs) =
          wgpu.BuilderCall.applyAll (wgpu.BuilderCall.apply b (wgpu.BuilderCall.color att f)) cs :=
        rfl
      rw [step, ih]
      simp [wgpu.BuilderCall.apply, wgpu.Builder.color_attachment, wgpu.BuilderCall.colorDesc?]
    | depthStencil att f =>
      have step : wgpu.BuilderCall.applyAll b (wgpu.BuilderCall.depthStencil att f :: cs) =
          wgpu.BuilderCall.applyAll
            (wgpu.BuilderCall.apply b (wgpu.BuilderCall.depthStencil att f)) cs := rfl
      rw [step, ih]
      simp [wgpu.BuilderCall.apply, wgpu.Builder.depth_stencil_attachment',
        wgpu.BuilderCall.colorDesc?]

/-- Applying a call sequence leaves as depth-stencil attachment the
descriptor built by the last `depth_stencil_attachment` call, or the
initial one if there is none. -/
theorem applyAll_depth_stencil (cs : List wgpu.BuilderCall) (b : wgpu.Builder) :
    (wgpu.BuilderCall.applyAll b cs).depth_stencil_attachment =
      (match (cs.filterMap wgpu.BuilderCall.depthDesc?).getLast? with
       | some d => some d
       | none => b.depth_stencil_attachment) := by
  induction cs generalizing b with
  | nil => simp [wgpu.BuilderCall.applyAll]
  | cons c cs ih =>
    cases c with
    | color att f =>
      have step : wgpu.BuilderCall.applyAll b (wgpu.BuilderCall.color att f :: cs) =
          wgpu.BuilderCall.applyAll (wgpu.BuilderCall.apply b (wgpu.BuilderCall.color att f)) cs :=
        rfl
      rw [step, ih]
      simp [wgpu.BuilderCall.apply, wgpu.Builder.color_attachment, wgpu.BuilderCall.depthDesc?]
    | depthStencil att f =>
      have step : wgpu.BuilderCall.applyAll b (wgpu.BuilderCall.depthStencil att f :: cs) =
          wgpu.BuilderCall.applyAll
            (wgpu.BuilderCall.apply b (wgpu.BuilderCall.depthStencil att f)) cs := rfl
      rw [step, ih]
      simp only [wgpu.BuilderCall.depthDesc?, List.filterMap_cons]
      cases h : cs.filterMap wgpu.BuilderCall.depthDesc? with
      | nil =>
        simp [wgpu.BuilderCall.apply, wgpu.Builder.depth_stencil_attachment']
      | cons x xs =>
        rw [List.getLast?_cons_cons]
        cases h2 : (x :: xs).getLast? with
        | none => simp [List.getLast?_eq_none_iff] at h2
        | some d => simp

/-- Each `color_attachment` call contributes exactly one descriptor, so
the built color list is as long as the number of such calls. -/
theorem length_filterMap_colorDesc (cs : List wgpu.BuilderCall) :
    (cs.filterMap wgpu.BuilderCall.colorDesc?).length =
      cs.countP (fun c => wgpu.BuilderCall.isColor c) := by
  induction cs with
  | nil => simp
  | cons c cs ih =>
    cases c <;>
      simp [wgpu.BuilderCall.colorDesc?, wgpu.BuilderCall.isColor, List.countP_cons, ih]

/-- C7: for every sequence of calls on a render-pass `Builder`, each
`color_attachment` call appends exactly one color attachment
descriptor, so `into_inner` returns the color descriptors in call order
with length equal to the number of `color_attachment` calls, while the
depth-stencil component equals the descriptor built by the last
`depth_stencil_attachment` call (or `None` if it was never called). -/
theorem C7_render_pass_builder_accumulates_in_call_order (calls : List wgpu.BuilderCall) :
    (wgpu.BuilderCall.applyAll wgpu.Builder.new calls).into_inner =
      ( calls.filterMap wgpu.BuilderCall.colorDesc?
      , (calls.filterMap wgpu.BuilderCall.depthDesc?).getLast? ) ∧
    (wgpu.BuilderCall.applyAll wgpu.Builder.new calls).color_attachments.length =
      calls.countP (fun c => wgpu.BuilderCall.isColor c) := by
  constructor
  · unfold wgpu.Builder.into_inner
    rw [applyAll_color_attachments, applyAll_depth_stencil]
    cases h : (calls.filterMap wgpu.BuilderCall.depthDesc?).getLast? <;>
      simp [wgpu.Builder.new, wgpu.Builder.mkDefault]
  · rw [applyAll_color_attachments]
    simp [wgpu.Builder.new, wgpu.Builder.mkDefault, length_filterMap_colorDesc]

/-- C3: on every call, `Renderer::encode_render_pass` re-uploads the
mesh and issues one indexed draw: regardless of the previous contents of
its vertices and indices vectors, they are refilled from the draw's raw
vertices mapped through `Vertex::from_mesh_vertex` and from the draw's
inner mesh indices cast to u32, fresh vertex and index buffers are
created from them, and `draw_indexed` covers the full index range
`0..indices.len()` with start vertex 0 and instance range `0..1`,
appended to the encoder as one pass. -/
theorem C3_renderer_reuploads_mesh_and_draws_indexed (r : wgpu0.Renderer)
    (d : wgpu0.Draw) (sf : ℚ) (w h : ℕ) (att : ℕ) (rt : Option ℕ)
    (enc : wgpu0.CommandEncoder) :
    ((wgpu0.Renderer.encode_render_pass r d sf (w, h) att rt enc).1.vertices =
      d.raw_vertices.map (fun v => wgpu0.Vertex.from_mesh_vertex v (w : ℚ) (h : ℚ) sf)) ∧
    ((wgpu0.Renderer.encode_render_pass r d sf (w, h) att rt enc).1.indices =
      d.mesh_indices.map (fun u => u % 2 ^ 32)) ∧
    ((wgpu0.Renderer.encode_render_pass r d sf (w, h) att rt enc).2 =
      enc ++ [(wgpu0.Renderer.encode_step r d sf (w, h) att rt).2]) ∧
    ((wgpu0.Renderer.encode_step r d sf (w, h) att rt).2.commands =
      [ wgpu0.RenderPassCommand.setPipeline r.render_pipeline
      , wgpu0.RenderPassCommand.setBindGroup 0 r.bind_group
      , wgpu0.RenderPassCommand.setIndexBuffer (d.mesh_indices.map (fun u => u % 2 ^ 32)) 0
      , wgpu0.RenderPassCommand.setVertexBuffers 0
          [(d.raw_vertices.map (fun v => wgpu0.Vertex.from_mesh_vertex v (w : ℚ) (h : ℚ) sf), 0)]
      , wgpu0.RenderPassCommand.drawIndexed
          (0, (d.mesh_indices.map (fun u => u % 2 ^ 32)).length) 0 (0, 1) ]) := by
  rcases d with ⟨rv, mi, bg⟩
  by_cases hsz : (w, h) = r.depth_texture.size <;> cases bg <;>
    simp [wgpu0.Renderer.encode_render_pass, wgpu0.Renderer.encode_step, hsz]

/-- C9: `Renderer::encode_render_pass` selects the color attachment load
operation from the drawing's background color: `LoadOp::Load` with a
transparent clear color when it is `None`, and `LoadOp::Clear` with the
clear color equal to the componentwise conversion of `(r, g, b, a)` when
it is `Some`. -/
theorem C9_renderer_load_op_from_background_color (r : wgpu0.Renderer)
    (d : wgpu0.Draw) (sf : ℚ) (w h : ℕ) (att : ℕ) (rt : Option ℕ)
    (enc : wgpu0.CommandEncoder) :
    ((wgpu0.Renderer.encode_render_pass r d sf (w, h) att rt enc).2 =
      enc ++ [(wgpu0.Renderer.encode_step r d sf (w, h) att rt).2]) ∧
    ((wgpu0.Renderer.encode_step r d sf (w, h) att rt).2.color_attachments =
      [ { attachment := att
          resolve_target := rt
          load_op :=
            match d.background_color with
            | none => wgpu0.LoadOp.Load
            | some _ => wgpu0.LoadOp.Clear
          clear_color :=
            match d.background_color with
            | none => wgpu.Color.TRANSPARENT
            | some c => { r := c.r, g := c.g, b := c.b, a := c.a } } ]) := by
  rcases d with ⟨rv, mi, bg⟩
  by_cases hsz : (w, h) = r.depth_texture.size <;> cases bg <;>
    simp [wgpu0.Renderer.encode_render_pass, wgpu0.Renderer.encode_step, hsz]

/-- C10: `Renderer::encode_render_pass` recreates its depth texture (and
view) if and only if the output attachment size differs from the current
depth texture's size; the recreated texture keeps the previous format
and sample count while taking the new size, and when the sizes are equal
the depth texture field is left unchanged. -/
theorem C10_renderer_recreates_depth_texture_iff_size_changed (r : wgpu0.Renderer)
    (d : wgpu0.Draw) (sf : ℚ) (w h : ℕ) (att : ℕ) (rt : Option ℕ)
    (enc : wgpu0.CommandEncoder) :
    ((wgpu0.Renderer.encode_render_pass r d sf (w, h) att rt enc).1 =
      (wgpu0.Renderer.encode_step r d sf (w, h) att rt).1) ∧
    ((wgpu0.Renderer.encode_step r d sf (w, h) att rt).1.depth_texture =
      if (w, h) ≠ r.depth_texture.size then
        { size := (w, h)
          format := r.depth_texture.format
          usage := wgpu0.TextureUsage.OUTPUT_ATTACHMENT
          sample_count := r.depth_texture.sample_count }
      else r.depth_texture) ∧
    ((wgpu0.Renderer.encode_step r d sf (w, h) att rt).1.depth_texture_view =
      if (w, h) ≠ r.depth_texture.size then
        wgpu0.Texture.create_default_view
          { size := (w, h)
            format := r.depth_texture.format
            usage := wgpu0.TextureUsage.OUTPUT_ATTACHMENT
            sample_count := r.depth_texture.sample_count }
      else r.depth_texture_view) := by
  rcases d with ⟨rv, mi, bg⟩
  by_cases hsz : (w, h) = r.depth_texture.size <;> cases bg <;>
    simp [wgpu0.Renderer.encode_render_pass, wgpu0.Renderer.encode_step, hsz,
      wgpu0.create_depth_texture, wgpu0.TextureBuilder.new, wgpu0.TextureBuilder.setSize,
      wgpu0.TextureBuilder.setFormat, wgpu0.TextureBuilder.setUsage,
      wgpu0.TextureBuilder.setSampleCount, wgpu0.TextureBuilder.build,
      wgpu0.Texture.create_default_view]
